import Mathlib

set_option linter.unusedVariables false

/-!
Verification development for the invoiceflow server (Express + Drizzle/PostgreSQL).

The definitions below are a shallow embedding of the server-side core:
the ledger tables of `shared/schema.ts`, the storage operations of
`server/storage.ts` (class DatabaseStorage) and the route handlers of
`server/routes.ts`.  SQL tables are embedded as Lean lists of row
structures; `SELECT ... WHERE eq(id)` with a single-row destructuring is
`List.find?`; `UPDATE ... WHERE eq(id)` maps over the list; `INSERT`
appends; `DELETE ... WHERE` filters.  Monetary amounts (SQL
`decimal(10,2)`) are embedded as rationals; the JavaScript
`parseFloat`-sum-`toFixed(2)` pipeline is embedded as exact rational
summation followed by rounding to two fractional digits.  Calendar dates
(stored as `YYYY-MM-DD` text) are embedded as a year/month/day triple,
and the JavaScript `Date` mutator semantics (`setDate`, `setMonth`,
`setFullYear`, which normalize day-of-month overflow by rolling the
excess days into the following month) are embedded explicitly, under the
standard server assumption that the process runs in the UTC timezone so
that the local-time accessors coincide with the UTC calendar.
Timestamps (`createdAt` / `updatedAt`) and result ordering are not
modelled; no verified property depends on them.
-/

namespace InvoiceFlow

/-- A calendar date, the embedding of the `YYYY-MM-DD` text dates stored
in the `date`, `startDate`, `endDate`, `nextInvoiceDate` and
`lastInvoiceDate` columns. -/
structure Ymd where
  year : Nat
  month : Nat
  day : Nat
deriving DecidableEq, Repr

/-- Gregorian leap-year rule, as implemented by the JavaScript `Date`
calendar. -/
def isLeapYear (y : Nat) : Bool :=
  (y % 4 == 0 && y % 100 != 0) || y % 400 == 0

/-- Number of days of month `m` (1-based) of year `y` in the JavaScript
`Date` calendar. -/
def daysInMonth (y m : Nat) : Nat :=
  if m = 2 then (if isLeapYear y then 29 else 28)
  else if m = 4 ∨ m = 6 ∨ m = 9 ∨ m = 11 then 30
  else 31

theorem daysInMonth_ge (y m : Nat) : 28 ≤ daysInMonth y m := by
  unfold daysInMonth
  split
  · split <;> omega
  · split <;> omega

theorem daysInMonth_le (y m : Nat) : daysInMonth y m ≤ 31 := by
  unfold daysInMonth
  split
  · split <;> omega
  · split <;> omega

/-- JavaScript `Date` day-of-month normalization: a day count that
exceeds the length of the current month rolls the excess into the
following month (carrying into the next year after December).  The fuel
argument bounds the number of carry steps; since every step removes at
least 28 days, fuel `d` always suffices for a day count `d`. -/
def normalizeDayAux : Nat → Nat → Nat → Nat → Ymd
  | 0, y, m, d => ⟨y, m, d⟩
  | fuel + 1, y, m, d =>
    if daysInMonth y m < d then
      if m = 12 then normalizeDayAux fuel (y + 1) 1 (d - daysInMonth y m)
      else normalizeDayAux fuel y (m + 1) (d - daysInMonth y m)
    else ⟨y, m, d⟩

/-- Normalize a (year, month, day) triple the way the JavaScript `Date`
mutators do. -/
def normalizeDay (y m d : Nat) : Ymd := normalizeDayAux d y m d

/-- JavaScript `date.setMonth(date.getMonth() + k)`: moves `k` months
forward keeping the day-of-month, then normalizes day overflow. -/
def addMonths (date : Ymd) (k : Nat) : Ymd :=
  let idx := (date.month - 1) + k
  normalizeDay (date.year + idx / 12) (idx % 12 + 1) date.day

/-- JavaScript `date.setDate(date.getDate() + 7)`. -/
def addDays7 (date : Ymd) : Ymd :=
  normalizeDay date.year date.month (date.day + 7)

/-- JavaScript `date.setFullYear(date.getFullYear() + 1)`. -/
def addYears1 (date : Ymd) : Ymd :=
  normalizeDay (date.year + 1) date.month date.day

/-- Embedding of `calculateNextInvoiceDate` (server/routes.ts): switch
on the frequency string; an unrecognized frequency leaves the date
unchanged (the switch has no default case). -/
def calculateNextInvoiceDate (frequency : String) (currentDate : Ymd) : Ymd :=
  if frequency = "weekly" then addDays7 currentDate
  else if frequency = "monthly" then addMonths currentDate 1
  else if frequency = "quarterly" then addMonths currentDate 3
  else if frequency = "yearly" then addYears1 currentDate
  else currentDate

theorem normalizeDayAux_no_overflow (fuel y m d : Nat)
    (h : d ≤ daysInMonth y m) : normalizeDayAux fuel y m d = ⟨y, m, d⟩ := by
  cases fuel with
  | zero => rfl
  | succ n =>
    unfold normalizeDayAux
    rw [if_neg (by omega)]

theorem normalizeDayAux_step (fuel y m d : Nat) (h : daysInMonth y m < d)
    (h12 : m ≠ 12) : normalizeDayAux (fuel + 1) y m d =
      normalizeDayAux fuel y (m + 1) (d - daysInMonth y m) := by
  show (if daysInMonth y m < d then
      if m = 12 then normalizeDayAux fuel (y + 1) 1 (d - daysInMonth y m)
      else normalizeDayAux fuel y (m + 1) (d - daysInMonth y m)
    else ⟨y, m, d⟩) = normalizeDayAux fuel y (m + 1) (d - daysInMonth y m)
  rw [if_pos h, if_neg h12]

/-- Rounding to two fractional digits, the embedding of the JavaScript
`Number.toFixed(2)` applied to the `parseFloat` sum of decimal
amounts (round to nearest; exact two-decimal inputs make the tie rule
irrelevant). -/
def round2 (q : ℚ) : ℚ := ((⌊q * 100 + 1 / 2⌋ : ℤ) : ℚ) / 100

theorem round2_eq_round (q : ℚ) : round2 q = ((round (q * 100) : ℤ) : ℚ) / 100 := by
  rw [round2, round_eq]

/-- On an exact multiple of a hundredth (every sum of two-decimal
amounts), two-digit rounding is the identity. -/
theorem round2_eq_self (n : ℤ) : round2 ((n : ℚ) / 100) = (n : ℚ) / 100 := by
  rw [round2]
  have h1 : ((n : ℚ) / 100) * 100 = (n : ℚ) := by ring
  rw [h1]
  have h2 : ⌊(n : ℚ) + 1 / 2⌋ = n := by
    rw [Int.floor_eq_iff]
    constructor
    · linarith
    · linarith
  rw [h2]

/-- Row of the `customers` table (shared/schema.ts). -/
structure Customer where
  id : String
  userId : String
  name : String
  email : String
  phone : String
  address : String
deriving DecidableEq, Repr

/-- Row of the `invoices` table (shared/schema.ts).  `service` and
`amount` are the nullable legacy single-line columns; `amount` is the
stored aggregate that predates line items. -/
structure Invoice where
  id : String
  userId : String
  customerId : String
  recurringInvoiceId : Option String
  invoiceNumber : Nat
  date : Ymd
  service : Option String
  amount : Option ℚ
  isPaid : Bool
  stripePaymentLinkId : Option String
  paymentLinkUrl : Option String
deriving DecidableEq, Repr

/-- Row of the `invoice_items` table (shared/schema.ts). -/
structure InvoiceItem where
  id : String
  invoiceId : String
  description : String
  amount : ℚ
deriving DecidableEq, Repr

/-- Row of the `recurring_invoices` table (shared/schema.ts).  The
frequency enum is kept as a string, matching the `string`-typed switch
in `calculateNextInvoiceDate`. -/
structure RecurringInvoice where
  id : String
  userId : String
  customerId : String
  name : String
  frequency : String
  startDate : Ymd
  endDate : Option Ymd
  nextInvoiceDate : Ymd
  lastInvoiceDate : Option Ymd
  isActive : Bool
deriving DecidableEq, Repr

/-- Row of the `recurring_invoice_items` table (shared/schema.ts). -/
structure RecurringInvoiceItem where
  id : String
  recurringInvoiceId : String
  description : String
  amount : ℚ
deriving DecidableEq, Repr

/-- The ledger: the five domain tables of the relational store. -/
structure State where
  customers : List Customer
  invoices : List Invoice
  invoiceItems : List InvoiceItem
  recurringInvoices : List RecurringInvoice
  recurringInvoiceItems : List RecurringInvoiceItem
deriving DecidableEq, Repr

namespace Storage

/-- `DatabaseStorage.getCustomer`: select by primary key, no owner
filter. -/
def getCustomer (s : State) (id : String) : Option Customer :=
  s.customers.find? (fun c => c.id == id)

/-- `DatabaseStorage.getInvoiceItems`: all items of one invoice. -/
def getInvoiceItems (s : State) (invoiceId : String) : List InvoiceItem :=
  s.invoiceItems.filter (fun it => it.invoiceId == invoiceId)

/-- `DatabaseStorage.getRecurringInvoiceItems`. -/
def getRecurringInvoiceItems (s : State) (recurringInvoiceId : String) :
    List RecurringInvoiceItem :=
  s.recurringInvoiceItems.filter (fun it => it.recurringInvoiceId == recurringInvoiceId)

/-- The joined row shape returned by `getInvoice` / `getInvoices`:
invoice columns, the left-joined customer, the item list, and the
`amount` field overridden by the derived total. -/
structure InvoiceView where
  id : String
  userId : String
  customerId : String
  recurringInvoiceId : Option String
  invoiceNumber : Nat
  date : Ymd
  service : Option String
  amount : Option ℚ
  isPaid : Bool
  stripePaymentLinkId : Option String
  paymentLinkUrl : Option String
  customer : Option Customer
  items : List InvoiceItem
deriving DecidableEq, Repr

/-- Assemble the joined view of one invoice row: fetch its items and
replace `amount` by the item total (two-digit rounded sum) whenever at
least one item exists, keeping the stored legacy amount otherwise.
This is the body of the `map` in `getInvoices` and the tail of
`getInvoice` (server/storage.ts). -/
def invoiceView (s : State) (r : Invoice) : InvoiceView :=
  let items := getInvoiceItems s r.id
  let total : Option ℚ :=
    if items.length > 0 then some (round2 ((items.map (fun it => it.amount)).sum))
    else r.amount
  { id := r.id, userId := r.userId, customerId := r.customerId,
    recurringInvoiceId := r.recurringInvoiceId, invoiceNumber := r.invoiceNumber,
    date := r.date, service := r.service, amount := total, isPaid := r.isPaid,
    stripePaymentLinkId := r.stripePaymentLinkId, paymentLinkUrl := r.paymentLinkUrl,
    customer := getCustomer s r.customerId, items := items }

/-- `DatabaseStorage.getInvoice`: select one invoice by id (no owner
filter), left-join its customer, attach items and the derived total. -/
def getInvoice (s : State) (id : String) : Option InvoiceView :=
  (s.invoices.find? (fun r => r.id == id)).map (invoiceView s)

/-- `DatabaseStorage.getInvoices`: all invoices of one user, each with
customer, items and derived total.  The `createdAt` ordering is not
modelled. -/
def getInvoices (s : State) (userId : String) : List InvoiceView :=
  (s.invoices.filter (fun r => r.userId == userId)).map (invoiceView s)

/-- `DatabaseStorage.getNextInvoiceNumber` selects the user's invoice
numbers ordered descending with limit 1, i.e. their maximum.  This
helper is that `ORDER BY invoice_number DESC LIMIT 1` head. -/
def maxNumber : List Nat → Option Nat
  | [] => none
  | n :: ns =>
    match maxNumber ns with
    | none => some n
    | some m => some (max n m)

/-- `DatabaseStorage.getNextInvoiceNumber`: max existing number plus
one, or 1001 for a user with no invoices. -/
def getNextInvoiceNumber (s : State) (userId : String) : Nat :=
  match maxNumber ((s.invoices.filter (fun r => r.userId == userId)).map
      (fun r => r.invoiceNumber)) with
  | some m => m + 1
  | none => 1001

/-- The joined row shape returned by `getRecurringInvoice` /
`getRecurringInvoices`: template columns, the left-joined customer, the
item list and the derived total (for templates the total is always
recomputed from items, with no legacy fallback). -/
structure RecurringView where
  id : String
  userId : String
  customerId : String
  name : String
  frequency : String
  startDate : Ymd
  endDate : Option Ymd
  nextInvoiceDate : Ymd
  lastInvoiceDate : Option Ymd
  isActive : Bool
  customer : Option Customer
  items : List RecurringInvoiceItem
  amount : ℚ
deriving DecidableEq, Repr

/-- `DatabaseStorage.getRecurringInvoice`: select one template by id
(no owner filter), left-join its customer, attach items and total. -/
def getRecurringInvoice (s : State) (id : String) : Option RecurringView :=
  (s.recurringInvoices.find? (fun r => r.id == id)).map (fun r =>
    let items := getRecurringInvoiceItems s r.id
    { id := r.id, userId := r.userId, customerId := r.customerId, name := r.name,
      frequency := r.frequency, startDate := r.startDate, endDate := r.endDate,
      nextInvoiceDate := r.nextInvoiceDate, lastInvoiceDate := r.lastInvoiceDate,
      isActive := r.isActive, customer := getCustomer s r.customerId,
      items := items,
      amount := round2 ((items.map (fun it => it.amount)).sum) })

/-- The partial update object passed to `DatabaseStorage.updateInvoice`
(`Partial<Invoice>`): the fields actually patched by the callers in
server/routes.ts.  `none` means the field is absent from the patch. -/
structure InvoicePatch where
  isPaid : Option Bool
  stripePaymentLinkId : Option String
  paymentLinkUrl : Option String
deriving DecidableEq, Repr

/-- Drizzle `update(invoices).set({ ...data })`: fields present in the
patch replace the stored ones. -/
def applyPatch (r : Invoice) (p : InvoicePatch) : Invoice :=
  { r with
    isPaid := p.isPaid.getD r.isPaid,
    stripePaymentLinkId :=
      (p.stripePaymentLinkId.map some).getD r.stripePaymentLinkId,
    paymentLinkUrl := (p.paymentLinkUrl.map some).getD r.paymentLinkUrl }

/-- `DatabaseStorage.updateInvoice`: update by id (no owner filter),
returning the updated row, or `undefined` when no row matched. -/
def updateInvoice (s : State) (id : String) (p : InvoicePatch) :
    Option Invoice × State :=
  let rows := s.invoices.map (fun r => if r.id == id then applyPatch r p else r)
  (rows.find? (fun r => r.id == id), { s with invoices := rows })

/-- The validated body of PATCH /api/customers/:id
(`insertCustomerSchema`): all four contact fields, owner not
settable. -/
structure CustomerData where
  name : String
  email : String
  phone : String
  address : String
deriving DecidableEq, Repr

/-- `DatabaseStorage.updateCustomer`: update by id — no owner filter —
returning the updated row or `undefined`. -/
def updateCustomer (s : State) (id : String) (d : CustomerData) :
    Option Customer × State :=
  let rows := s.customers.map (fun c =>
    if c.id == id then
      { c with name := d.name, email := d.email, phone := d.phone,
               address := d.address }
    else c)
  (rows.find? (fun c => c.id == id), { s with customers := rows })

/-- `DatabaseStorage.deleteCustomer` plus the foreign-key cascades of
shared/schema.ts: invoices and recurring templates of the customer are
cascade-deleted, their items cascade with them, and invoices that
referenced a cascade-deleted template (but survive because they belong
to another customer) get their template reference set to null. -/
def deleteCustomer (s : State) (id : String) : State :=
  let deadRecurring :=
    (s.recurringInvoices.filter (fun r => r.customerId == id)).map (fun r => r.id)
  let deadInvoices :=
    (s.invoices.filter (fun r => r.customerId == id)).map (fun r => r.id)
  { customers := s.customers.filter (fun c => c.id != id),
    invoices := (s.invoices.filter (fun r => r.customerId != id)).map (fun r =>
      match r.recurringInvoiceId with
      | some rid =>
        if deadRecurring.contains rid then { r with recurringInvoiceId := none }
        else r
      | none => r),
    invoiceItems :=
      s.invoiceItems.filter (fun it => !(deadInvoices.contains it.invoiceId)),
    recurringInvoices := s.recurringInvoices.filter (fun r => r.customerId != id),
    recurringInvoiceItems := s.recurringInvoiceItems.filter (fun it =>
      !(deadRecurring.contains it.recurringInvoiceId)) }

/-- The argument of `DatabaseStorage.createInvoiceWithItems`
(`CreateInvoiceWithItems & { userId, invoiceNumber }`): header fields
plus the line items as (description, amount) pairs. -/
structure NewInvoiceData where
  customerId : String
  recurringInvoiceId : Option String
  date : Ymd
  isPaid : Bool
  userId : String
  invoiceNumber : Nat
  items : List (String × ℚ)
deriving DecidableEq, Repr

/-- `DatabaseStorage.createInvoiceWithItems`: insert the header row,
then — in a separate statement, with no enclosing transaction — insert
the item rows.  `freshId` stands for the `gen_random_uuid()` primary key
of the new header; item primary keys are derived from it.
`itemInsertFails` injects a failure of the second INSERT (a thrown
database error): in that case the function propagates the error, but the
header row inserted by the first statement is already persisted and is
not rolled back or compensated. -/
def createInvoiceWithItems (s : State) (d : NewInvoiceData) (freshId : String)
    (itemInsertFails : Bool) : Except Unit Invoice × State :=
  let newInvoice : Invoice :=
    { id := freshId, userId := d.userId, customerId := d.customerId,
      recurringInvoiceId := d.recurringInvoiceId,
      invoiceNumber := d.invoiceNumber, date := d.date, service := none,
      amount := none, isPaid := d.isPaid, stripePaymentLinkId := none,
      paymentLinkUrl := none }
  let s1 := { s with invoices := s.invoices ++ [newInvoice] }
  if d.items.length > 0 then
    if itemInsertFails then (Except.error (), s1)
    else
      let newItems := d.items.enum.map (fun p =>
        InvoiceItem.mk (freshId ++ "-item-" ++ toString p.1) freshId p.2.1 p.2.2)
      (Except.ok newInvoice, { s1 with invoiceItems := s1.invoiceItems ++ newItems })
  else (Except.ok newInvoice, s1)

/-- The partial update object of PATCH /api/recurring-invoices/:id
(body minus `items`, the `insertRecurringInvoiceSchema` fields). -/
structure RecurringPatch where
  customerId : Option String
  name : Option String
  frequency : Option String
  startDate : Option Ymd
  endDate : Option (Option Ymd)
  isActive : Option Bool
deriving DecidableEq, Repr

/-- Drizzle `update(recurringInvoices).set({ ...data })`. -/
def applyRecurringPatch (r : RecurringInvoice) (p : RecurringPatch) :
    RecurringInvoice :=
  { r with
    customerId := p.customerId.getD r.customerId,
    name := p.name.getD r.name,
    frequency := p.frequency.getD r.frequency,
    startDate := p.startDate.getD r.startDate,
    endDate := p.endDate.getD r.endDate,
    isActive := p.isActive.getD r.isActive }

/-- `DatabaseStorage.updateRecurringInvoice`: header-only template
update by id, no owner filter. -/
def updateRecurringInvoice (s : State) (id : String) (p : RecurringPatch) :
    Option RecurringInvoice × State :=
  let rows := s.recurringInvoices.map (fun r =>
    if r.id == id then applyRecurringPatch r p else r)
  (rows.find? (fun r => r.id == id), { s with recurringInvoices := rows })

/-- `DatabaseStorage.updateRecurringInvoiceWithItems`: update the
template row; if it existed, delete all its old template items and
insert the replacement set.  Only the `recurring_invoice_items` table is
touched — concrete `invoice_items` rows of generated invoices are not
part of any statement here. -/
def updateRecurringInvoiceWithItems (s : State) (id : String)
    (p : RecurringPatch) (items : List (String × ℚ)) (freshId : String) :
    Option RecurringInvoice × State :=
  match (s.recurringInvoices.map (fun r =>
      if r.id == id then applyRecurringPatch r p else r)).find?
      (fun r => r.id == id) with
  | none =>
    (none, { s with recurringInvoices := s.recurringInvoices.map (fun r =>
        if r.id == id then applyRecurringPatch r p else r) })
  | some updated =>
    (some updated,
     { s with
       recurringInvoices := s.recurringInvoices.map (fun r =>
         if r.id == id then applyRecurringPatch r p else r),
       recurringInvoiceItems :=
         s.recurringInvoiceItems.filter (fun it => it.recurringInvoiceId != id)
         ++ (if items.length > 0 then
              items.enum.map (fun q =>
                RecurringInvoiceItem.mk (freshId ++ "-item-" ++ toString q.1) id
                  q.2.1 q.2.2)
            else []) })

/-- `DatabaseStorage.deleteRecurringInvoice` plus schema cascades:
template items are cascade-deleted; generated invoices survive with
their template reference set to null. -/
def deleteRecurringInvoice (s : State) (id : String) : State :=
  { s with
    recurringInvoices := s.recurringInvoices.filter (fun r => r.id != id),
    recurringInvoiceItems :=
      s.recurringInvoiceItems.filter (fun it => it.recurringInvoiceId != id),
    invoices := s.invoices.map (fun r =>
      if r.recurringInvoiceId == some id then { r with recurringInvoiceId := none }
      else r) }

/-- `DatabaseStorage.updateRecurringInvoiceNextDate`: set
`nextInvoiceDate` and `lastInvoiceDate` of one template. -/
def updateRecurringInvoiceNextDate (s : State) (id : String)
    (nextDate lastDate : Ymd) : State :=
  { s with recurringInvoices := s.recurringInvoices.map (fun r =>
      if r.id == id then
        { r with nextInvoiceDate := nextDate, lastInvoiceDate := some lastDate }
      else r) }

end Storage

namespace Routes

open Storage

/-- GET /api/invoices/:id (server/routes.ts).  Behind `requireAuth`, so
`callerUserId` is the authenticated session user; the handler fetches
the invoice by id and returns it — it never compares the invoice's
`userId` with the caller. -/
def getInvoiceHandler (s : State) (callerUserId : String) (id : String) :
    Nat × Option InvoiceView :=
  match getInvoice s id with
  | none => (404, none)
  | some v => (200, some v)

/-- PATCH /api/customers/:id: parse the body, update by id, 404 when the
row does not exist.  No ownership comparison against `callerUserId`. -/
def updateCustomerHandler (s : State) (callerUserId : String) (id : String)
    (d : CustomerData) : (Nat × Option Customer) × State :=
  let (updated, s1) := updateCustomer s id d
  match updated with
  | none => ((404, none), s1)
  | some c => ((200, some c), s1)

/-- DELETE /api/customers/:id: unconditional delete by id, responds 200
regardless; no ownership comparison. -/
def deleteCustomerHandler (s : State) (callerUserId : String) (id : String) :
    Nat × State :=
  (200, deleteCustomer s id)

/-- PATCH /api/invoices/:id/mark-paid: fetch by id (404 when absent),
then flip the paid flag.  No ownership comparison. -/
def markPaidHandler (s : State) (callerUserId : String) (id : String)
    (isPaid : Bool) : (Nat × Option Invoice) × State :=
  match getInvoice s id with
  | none => ((404, none), s)
  | some _ =>
    let (updated, s1) := updateInvoice s id ⟨some isPaid, none, none⟩
    ((200, updated), s1)

/-- GET /api/recurring-invoices/:id: fetch by id, 404 when absent.  No
ownership comparison. -/
def getRecurringInvoiceHandler (s : State) (callerUserId : String)
    (id : String) : Nat × Option RecurringView :=
  match getRecurringInvoice s id with
  | none => (404, none)
  | some v => (200, some v)

/-- PATCH /api/recurring-invoices/:id: fetch by id (404 when absent),
then update, with full item replacement when the body carries `items`.
No ownership comparison. -/
def updateRecurringInvoiceHandler (s : State) (callerUserId : String)
    (id : String) (p : RecurringPatch) (items : Option (List (String × ℚ)))
    (freshId : String) : (Nat × Option RecurringInvoice) × State :=
  match getRecurringInvoice s id with
  | none => ((404, none), s)
  | some _ =>
    match items with
    | some its =>
      let (u, s1) := updateRecurringInvoiceWithItems s id p its freshId
      ((200, u), s1)
    | none =>
      let (u, s1) := updateRecurringInvoice s id p
      ((200, u), s1)

/-- DELETE /api/recurring-invoices/:id: unconditional delete by id,
responds 200 regardless; no ownership comparison. -/
def deleteRecurringInvoiceHandler (s : State) (callerUserId : String)
    (id : String) : Nat × State :=
  (200, deleteRecurringInvoice s id)

/-- POST /api/recurring-invoices/:id/generate: load the template with
its customer (404 when either is missing), refuse inactive templates
(400), then create a concrete invoice dated `today` (the server clock's
current date) with a copy of the template's items, and advance the
template's schedule pointer.  The best-effort e-mail dispatch touches no
ledger state and is not modelled.  No ownership comparison between the
template's `userId` and `callerUserId`. -/
def generateHandler (s : State) (callerUserId : String) (id : String)
    (today : Ymd) (freshId : String) (itemInsertFails : Bool) :
    (Nat × Option Invoice) × State :=
  match getRecurringInvoice s id with
  | none => ((404, none), s)
  | some rv =>
    match rv.customer with
    | none => ((404, none), s)
    | some _ =>
      if !rv.isActive then ((400, none), s)
      else
        let invoiceNumber := getNextInvoiceNumber s callerUserId
        let d : NewInvoiceData :=
          { customerId := rv.customerId, recurringInvoiceId := some id,
            date := today, isPaid := false, userId := callerUserId,
            invoiceNumber := invoiceNumber,
            items := rv.items.map (fun it => (it.description, it.amount)) }
        match createInvoiceWithItems s d freshId itemInsertFails with
        | (Except.error _, s1) => ((500, none), s1)
        | (Except.ok inv, s1) =>
          let nextDate := calculateNextInvoiceDate rv.frequency today
          let s2 := updateRecurringInvoiceNextDate s1 id nextDate today
          ((200, some inv), s2)

/-- The `event.data.object` of a Stripe checkout event: the session id,
the session-level `metadata.invoiceId` correlation identifier, and the
optional payment-intent reference used as fallback. -/
structure StripeSession where
  id : String
  metadataInvoiceId : Option String
  paymentIntent : Option String
deriving DecidableEq, Repr

/-- A Stripe webhook event as produced by signature verification. -/
structure StripeEvent where
  type : String
  session : StripeSession
deriving DecidableEq, Repr

/-- An inbound webhook request: the raw body (absent when the transport
did not preserve it) and the `stripe-signature` header.  The signature
is embedded abstractly as the (secret, payload) pair the MAC
authenticates: a header is a valid signature exactly for the secret and
body it was computed over. -/
structure WebhookRequest where
  rawBody : Option StripeEvent
  sig : Option (String × StripeEvent)
deriving DecidableEq, Repr

/-- The webhook secret configuration
(`STRIPE_WEBHOOK_SECRET`/`TESTING_STRIPE_WEBHOOK_SECRET`). -/
structure WebhookConfig where
  secret : Option String
deriving DecidableEq, Repr

/-- The external Stripe store consulted by
`stripe.paymentIntents.retrieve`: payment-intent id to
`metadata.invoiceId`.  A missing entry makes `retrieve` reject (the
route's catch-all then answers 500). -/
def StripeEnv : Type := List (String × Option String)

/-- Modelled from the spec: `stripe.webhooks.constructEvent` of the
external Stripe SDK (not part of src/) "verifies the webhook signature
using the raw body against a configured secret" and yields the parsed
event.  Embedded abstractly: verification succeeds exactly when the raw
body is available and the signature header is the MAC of that body
under that secret; any mismatch or missing piece throws, which the
handler turns into its 400 branch. -/
def constructEvent (secret : String) (req : WebhookRequest) :
    Option StripeEvent :=
  match req.rawBody with
  | none => none
  | some body =>
    match req.sig with
    | none => none
    | some (sigSecret, sigBody) =>
      if sigSecret = secret ∧ sigBody = body then some body else none

/-- `stripe.paymentIntents.retrieve(pid).metadata?.invoiceId`:
`none` models the retrieve call rejecting. -/
def retrievePaymentIntentMeta (env : StripeEnv) (pid : String) :
    Option (Option String) :=
  (env.find? (fun p => p.1 == pid)).map (fun p => p.2)

/-- The tail of the webhook handler once an invoice id has been
extracted: mark the invoice paid; 404 when it no longer exists. -/
def markPaidStep (s : State) (invoiceId : String) : (Nat × Bool) × State :=
  let (updated, s1) := Storage.updateInvoice s invoiceId ⟨some true, none, none⟩
  match updated with
  | none => ((404, false), s1)
  | some _ => ((200, true), s1)

/-- POST /api/stripe/webhook (server/routes.ts).  Response is the status
code paired with whether the `{ received: true }` success body was sent.
Order of checks follows the source: missing secret → 500; signature
verification failure → 400 before anything else runs; for a verified
`checkout.session.completed` event the correlation id is taken from the
session metadata, else from the retrieved payment intent's metadata
(retrieve rejection → the catch-all 500); no id → 400; then the invoice
is marked paid (missing invoice → 404).  Any other verified event type
is acknowledged with success and no processing. -/
def stripeWebhookHandler (cfg : WebhookConfig) (env : StripeEnv) (s : State)
    (req : WebhookRequest) : (Nat × Bool) × State :=
  match cfg.secret with
  | none => ((500, false), s)
  | some secret =>
    match constructEvent secret req with
    | none => ((400, false), s)
    | some event =>
      if event.type = "checkout.session.completed" then
        match event.session.metadataInvoiceId with
        | some invoiceId => markPaidStep s invoiceId
        | none =>
          match event.session.paymentIntent with
          | none => ((400, false), s)
          | some pid =>
            match retrievePaymentIntentMeta env pid with
            | none => ((500, false), s)
            | some none => ((400, false), s)
            | some (some invoiceId) => markPaidStep s invoiceId
      else ((200, true), s)

end Routes

/-! Concrete ledger used by the witnesses below: one tenant `u1` owning
customer `c1`, a manually created invoice `i1` with two line items and a
stored legacy amount of 100, a generated invoice `i2` tracing back to
the monthly template `r1`, and the template's single item. -/

def demoCustomer : Customer :=
  ⟨"c1", "u1", "Acme Corp", "billing at acme.test", "555-0100", "1 Main St"⟩

def demoInvoice : Invoice :=
  ⟨"i1", "u1", "c1", none, 1001, ⟨2025, 1, 15⟩, none, some 100, false, none, none⟩

def demoGenInvoice : Invoice :=
  ⟨"i2", "u1", "c1", some "r1", 1002, ⟨2025, 1, 20⟩, none, none, false, none, none⟩

def demoItem1 : InvoiceItem := ⟨"x1", "i1", "Design", 500⟩

def demoItem2 : InvoiceItem := ⟨"x2", "i1", "SEO", 300⟩

def demoGenItem : InvoiceItem := ⟨"x3", "i2", "Hosting", 75⟩

def demoTemplate : RecurringInvoice :=
  ⟨"r1", "u1", "c1", "Monthly retainer", "monthly", ⟨2025, 1, 15⟩, none,
   ⟨2025, 2, 15⟩, none, true⟩

def demoTemplateItem : RecurringInvoiceItem := ⟨"y1", "r1", "Hosting", 75⟩

def demoState : State :=
  ⟨[demoCustomer], [demoInvoice, demoGenInvoice],
   [demoItem1, demoItem2, demoGenItem], [demoTemplate], [demoTemplateItem]⟩

/-! Claim C5.  The spec documents the clamp rule for monthly
advancement (same day-of-month, clamped to the last day of a shorter
target month, so 2025-01-31 would map to 2025-02-28).
`calculateNextInvoiceDate` instead inherits the JavaScript `Date`
normalization, which rolls the overflow days forward into the following
month: 2025-01-31 maps to 2025-03-03, and yearly from 2024-02-29 maps to
2025-03-01. -/

/-- Claim C5, counterexample: monthly advancement from 2025-01-31 does
not clamp to the last day of February; the code yields 2025-03-03, not
the 2025-02-28 stated by the claim. -/
theorem claim5_monthly_not_clamped :
    calculateNextInvoiceDate "monthly" ⟨2025, 1, 31⟩ ≠ ⟨2025, 2, 28⟩ ∧
    calculateNextInvoiceDate "monthly" ⟨2025, 1, 31⟩ = ⟨2025, 3, 3⟩ := by
  constructor
  · decide
  · decide

/-- Claim C5, as amended: with frequency `monthly`,
`calculateNextInvoiceDate` maps any valid date to the same day-of-month
one calendar month later when that day exists in the target month, and
otherwise rolls the excess days forward into the month after (JavaScript
`Date` overflow, not clamping); deterministically, 2025-01-31 maps to
2025-03-03 and yearly from 2024-02-29 maps to 2025-03-01. -/
theorem claim5_amended_rollover :
    (∀ y m d : Nat, 1 ≤ m → m ≤ 12 → 1 ≤ d → d ≤ daysInMonth y m →
      calculateNextInvoiceDate "monthly" ⟨y, m, d⟩ =
        (if m = 12 then
          if d ≤ daysInMonth (y + 1) 1 then ⟨y + 1, 1, d⟩
          else ⟨y + 1, 2, d - daysInMonth (y + 1) 1⟩
        else
          if d ≤ daysInMonth y (m + 1) then ⟨y, m + 1, d⟩
          else ⟨y, m + 2, d - daysInMonth y (m + 1)⟩)) ∧
    calculateNextInvoiceDate "monthly" ⟨2025, 1, 31⟩ = ⟨2025, 3, 3⟩ ∧
    calculateNextInvoiceDate "yearly" ⟨2024, 2, 29⟩ = ⟨2025, 3, 1⟩ := by
  refine ⟨?_, by decide, by decide⟩
  intro y m d hm1 hm2 hd1 hd2
  have hcal : calculateNextInvoiceDate "monthly" ⟨y, m, d⟩ =
      addMonths ⟨y, m, d⟩ 1 := rfl
  rw [hcal]
  unfold addMonths normalizeDay
  have hidx : (m - 1) + 1 = m := by omega
  simp only [hidx]
  have hd31 : d ≤ 31 := le_trans hd2 (daysInMonth_le y m)
  by_cases h12 : m = 12
  · subst h12
    have hy : (12 : Nat) / 12 = 1 := by norm_num
    have hmm : (12 : Nat) % 12 + 1 = 1 := by norm_num
    rw [hy, hmm]
    have hjan : daysInMonth (y + 1) 1 = 31 := rfl
    rw [if_pos rfl, if_pos (by omega : d ≤ daysInMonth (y + 1) 1)]
    exact normalizeDayAux_no_overflow d (y + 1) 1 d (by omega)
  · have hy : m / 12 = 0 := Nat.div_eq_of_lt (by omega)
    have hmm : m % 12 + 1 = m + 1 := by rw [Nat.mod_eq_of_lt (by omega)]
    rw [hy, hmm, Nat.add_zero, if_neg h12]
    by_cases hov : d ≤ daysInMonth y (m + 1)
    · rw [if_pos hov]
      exact normalizeDayAux_no_overflow d y (m + 1) d hov
    · rw [if_neg hov]
      have hlt : daysInMonth y (m + 1) < d := by omega
      have hne12 : m + 1 ≠ 12 := by
        intro h
        have h31 : daysInMonth y (m + 1) = 31 := by rw [h]; rfl
        omega
      cases d with
      | zero => omega
      | succ n =>
        rw [normalizeDayAux_step n y (m + 1) (n + 1) hlt hne12]
        have hsmall : n + 1 - daysInMonth y (m + 1) ≤ daysInMonth y (m + 1 + 1) := by
          have h1 := daysInMonth_ge y (m + 1)
          have h2 := daysInMonth_ge y (m + 1 + 1)
          omega
        exact normalizeDayAux_no_overflow n y (m + 2) _ hsmall

/-- Claim C5, witness: the general monthly rule applied at 2025-04-31
is vacuous, so instantiate at the valid date 2025-01-15 (no overflow:
maps to 2025-02-15) by applying the amended theorem. -/
theorem claim5_witness :
    calculateNextInvoiceDate "monthly" ⟨2025, 1, 15⟩ =
      (if (1 : Nat) = 12 then
        if (15 : Nat) ≤ daysInMonth 2026 1 then ⟨2026, 1, 15⟩
        else ⟨2026, 2, 15 - daysInMonth 2026 1⟩
      else
        if (15 : Nat) ≤ daysInMonth 2025 2 then ⟨2025, 2, 15⟩
        else ⟨2025, 3, 15 - daysInMonth 2025 2⟩) :=
  claim5_amended_rollover.1 2025 1 15 (by decide) (by decide) (by decide) (by decide)

/-! Claim C2: webhook signature gate. -/

/-- Claim C2: a webhook request whose signature cannot be verified
against the configured secret (invalid or missing signature, or missing
raw body) is answered 400 with no success body, and the ledger state is
returned completely unchanged — regardless of what correlation id the
request body carries. -/
theorem claim2_webhook_bad_signature_rejected (cfg : Routes.WebhookConfig)
    (env : Routes.StripeEnv) (s : State) (req : Routes.WebhookRequest)
    (secret : String) (hsecret : cfg.secret = some secret)
    (hbad : Routes.constructEvent secret req = none) :
    Routes.stripeWebhookHandler cfg env s req = ((400, false), s) := by
  simp only [Routes.stripeWebhookHandler, hsecret, hbad]

/-- Claim C2, witness: a request carrying the correlation id of the
unpaid demo invoice but no signature header is rejected 400 and the
state is untouched. -/
theorem claim2_witness :
    Routes.stripeWebhookHandler ⟨some "whsec"⟩ [] demoState
      ⟨some ⟨"checkout.session.completed", ⟨"cs_1", some "i1", none⟩⟩, none⟩ =
      ((400, false), demoState) :=
  claim2_webhook_bad_signature_rejected ⟨some "whsec"⟩ [] demoState
    ⟨some ⟨"checkout.session.completed", ⟨"cs_1", some "i1", none⟩⟩, none⟩
    "whsec" rfl rfl

/-! Claim C10: verified events of any other type are acknowledged
without processing. -/

/-- Claim C10: a webhook request whose signature verifies but whose
event type is not `checkout.session.completed` is answered with the
`{ received: true }` success body and the ledger state is returned
completely unchanged. -/
theorem claim10_other_events_acknowledged (cfg : Routes.WebhookConfig)
    (env : Routes.StripeEnv) (s : State) (req : Routes.WebhookRequest)
    (secret : String) (ev : Routes.StripeEvent)
    (hsecret : cfg.secret = some secret)
    (hok : Routes.constructEvent secret req = some ev)
    (htype : ev.type ≠ "checkout.session.completed") :
    Routes.stripeWebhookHandler cfg env s req = ((200, true), s) := by
  simp only [Routes.stripeWebhookHandler, hsecret, hok]
  rw [if_neg htype]

/-- Claim C10, witness: a correctly signed `invoice.created` event is
acknowledged with success and no state change. -/
theorem claim10_witness :
    Routes.stripeWebhookHandler ⟨some "whsec"⟩ [] demoState
      ⟨some ⟨"invoice.created", ⟨"cs_2", some "i1", none⟩⟩,
       some ("whsec", ⟨"invoice.created", ⟨"cs_2", some "i1", none⟩⟩)⟩ =
      ((200, true), demoState) :=
  claim10_other_events_acknowledged ⟨some "whsec"⟩ [] demoState
    ⟨some ⟨"invoice.created", ⟨"cs_2", some "i1", none⟩⟩,
     some ("whsec", ⟨"invoice.created", ⟨"cs_2", some "i1", none⟩⟩)⟩
    "whsec" ⟨"invoice.created", ⟨"cs_2", some "i1", none⟩⟩ rfl (by decide)
    (by decide)

/-! Claim C4: the invoice numbering sequencer. -/

theorem maxNumber_mem : ∀ (l : List Nat) (m : Nat),
    Storage.maxNumber l = some m → m ∈ l := by
  intro l
  induction l with
  | nil => intro m h; exact absurd h (by simp [Storage.maxNumber])
  | cons a t ih =>
    intro m h
    unfold Storage.maxNumber at h
    cases ht : Storage.maxNumber t with
    | none =>
      rw [ht] at h
      simp only [Option.some.injEq] at h
      exact h ▸ List.mem_cons_self a t
    | some k =>
      rw [ht] at h
      simp only [Option.some.injEq] at h
      rcases Nat.le_total a k with hle | hle
      · rw [← h, max_eq_right hle]
        exact List.mem_cons_of_mem a (ih k ht)
      · rw [← h, max_eq_left hle]
        exact List.mem_cons_self a t

theorem maxNumber_eq_none (l : List Nat) (h : Storage.maxNumber l = none) :
    l = [] := by
  cases l with
  | nil => rfl
  | cons a t =>
    exact absurd h (by
      unfold Storage.maxNumber
      cases Storage.maxNumber t <;> simp)

theorem maxNumber_le : ∀ (l : List Nat) (m : Nat),
    Storage.maxNumber l = some m → ∀ n ∈ l, n ≤ m := by
  intro l
  induction l with
  | nil => intro m h n hn; exact absurd hn (List.not_mem_nil n)
  | cons a t ih =>
    intro m h n hn
    unfold Storage.maxNumber at h
    cases ht : Storage.maxNumber t with
    | none =>
      rw [ht] at h
      simp only [Option.some.injEq] at h
      rw [maxNumber_eq_none t ht] at hn
      rcases List.mem_singleton.mp hn with rfl
      omega
    | some k =>
      rw [ht] at h
      simp only [Option.some.injEq] at h
      rcases List.mem_cons.mp hn with rfl | hnt
      · omega
      · have := ih k ht n hnt
        omega

theorem maxNumber_isSome : ∀ (l : List Nat), l ≠ [] →
    ∃ m, Storage.maxNumber l = some m := by
  intro l h
  cases l with
  | nil => exact absurd rfl h
  | cons a t =>
    unfold Storage.maxNumber
    cases Storage.maxNumber t with
    | none => exact ⟨a, rfl⟩
    | some k => exact ⟨max a k, rfl⟩

/-- Claim C4: `getNextInvoiceNumber` returns one plus the maximum
invoice number among the caller's own invoices, and exactly 1001 when
the caller has none. -/
theorem claim4_next_invoice_number (s : State) (u : String) :
    (((s.invoices.filter (fun r => r.userId == u)).map
        (fun r => r.invoiceNumber)) = [] →
      Storage.getNextInvoiceNumber s u = 1001) ∧
    (((s.invoices.filter (fun r => r.userId == u)).map
        (fun r => r.invoiceNumber)) ≠ [] →
      ∃ m, m ∈ ((s.invoices.filter (fun r => r.userId == u)).map
          (fun r => r.invoiceNumber)) ∧
        (∀ n ∈ ((s.invoices.filter (fun r => r.userId == u)).map
            (fun r => r.invoiceNumber)), n ≤ m) ∧
        Storage.getNextInvoiceNumber s u = m + 1) := by
  constructor
  · intro h
    unfold Storage.getNextInvoiceNumber
    rw [h]
    rfl
  · intro h
    obtain ⟨m, hm⟩ := maxNumber_isSome _ h
    refine ⟨m, maxNumber_mem _ m hm, maxNumber_le _ m hm, ?_⟩
    unfold Storage.getNextInvoiceNumber
    rw [hm]

/-- Claim C4, witness: in the demo ledger user u1 owns invoices 1001
and 1002, so the next number is 1003; a fresh user u2 gets 1001. -/
theorem claim4_witness :
    Storage.getNextInvoiceNumber demoState "u1" = 1003 ∧
    Storage.getNextInvoiceNumber demoState "u2" = 1001 := by
  constructor
  · obtain ⟨m, hmem, hle, heq⟩ :=
      (claim4_next_invoice_number demoState "u1").2 (by decide)
    have h2 : 1002 ≤ m := hle 1002 (by decide)
    have h3 : ∀ n ∈ (demoState.invoices.filter
        (fun r => r.userId == "u1")).map (fun r => r.invoiceNumber),
        n ≤ 1002 := by decide
    have h1 : m ≤ 1002 := h3 m hmem
    rw [heq]
    omega
  · exact (claim4_next_invoice_number demoState "u2").1 (by decide)

/-! Claim C9: template edits never touch the items of generated
invoices. -/

/-- Claim C9: for an invoice generated from template `tid`, replacing
the template's items through `updateRecurringInvoiceWithItems` — or any
header-only template edit through `updateRecurringInvoice` — leaves the
`invoice_items` table, and hence the invoice's item set, unchanged. -/
theorem claim9_template_edit_frame (s : State) (tid : String) (inv : Invoice)
    (hmem : inv ∈ s.invoices) (hgen : inv.recurringInvoiceId = some tid) :
    (∀ p items freshId,
      (Storage.updateRecurringInvoiceWithItems s tid p items freshId).2.invoiceItems
        = s.invoiceItems ∧
      Storage.getInvoiceItems
          (Storage.updateRecurringInvoiceWithItems s tid p items freshId).2 inv.id
        = Storage.getInvoiceItems s inv.id) ∧
    (∀ p,
      (Storage.updateRecurringInvoice s tid p).2.invoiceItems = s.invoiceItems ∧
      Storage.getInvoiceItems (Storage.updateRecurringInvoice s tid p).2 inv.id
        = Storage.getInvoiceItems s inv.id) := by
  constructor
  · intro p items freshId
    unfold Storage.updateRecurringInvoiceWithItems
    cases hfind : (s.recurringInvoices.map (fun r =>
        if r.id == tid then Storage.applyRecurringPatch r p else r)).find?
        (fun r => r.id == tid) with
    | none => exact ⟨rfl, rfl⟩
    | some updated => exact ⟨rfl, rfl⟩
  · intro p
    exact ⟨rfl, rfl⟩

/-- Claim C9, witness: replacing the demo template's single 75 item
with a 9000 item leaves the generated invoice i2's items untouched. -/
theorem claim9_witness :
    Storage.getInvoiceItems
        (Storage.updateRecurringInvoiceWithItems demoState "r1"
          ⟨none, none, none, none, none, none⟩ [("Consulting", 9000)] "f1").2
        demoGenInvoice.id
      = Storage.getInvoiceItems demoState demoGenInvoice.id :=
  ((claim9_template_edit_frame demoState "r1" demoGenInvoice
      (by decide) rfl).1
    ⟨none, none, none, none, none, none⟩ [("Consulting", 9000)] "f1").2

/-! Claim C8: `createInvoiceWithItems` is not atomic. -/

/-- Claim C8: `createInvoiceWithItems` runs the header INSERT and the
items INSERT as two separate statements with no transaction.  Evaluated
at a failing item insertion: the call propagates the error, yet the new
header row i9 is left persisted with zero items — an orphaned header,
contradicting the claim that no header row remains on failure. -/
theorem claim8_create_not_atomic :
    (Storage.createInvoiceWithItems demoState
        ⟨"c1", none, ⟨2025, 3, 1⟩, false, "u1", 1003, [("Design", 500)]⟩
        "i9" true).1.isOk = false ∧
    ((Storage.createInvoiceWithItems demoState
        ⟨"c1", none, ⟨2025, 3, 1⟩, false, "u1", 1003, [("Design", 500)]⟩
        "i9" true).2.invoices.map (fun r => r.id)).contains "i9" = true ∧
    Storage.getInvoiceItems
        (Storage.createInvoiceWithItems demoState
          ⟨"c1", none, ⟨2025, 3, 1⟩, false, "u1", 1003, [("Design", 500)]⟩
          "i9" true).2 "i9" = [] := by
  refine ⟨rfl, rfl, ?_⟩
  decide

/-! Claim C3: the effective amount is derived from line items at read
time. -/

theorem invoiceView_amount_spec (s : State) (r : Invoice) (hr : r ∈ s.invoices) :
    ((Storage.invoiceView s r).items ≠ [] →
      (Storage.invoiceView s r).amount =
        some (round2 (((Storage.invoiceView s r).items.map
          (fun it => it.amount)).sum))) ∧
    ((Storage.invoiceView s r).items = [] →
      ∃ r0 ∈ s.invoices, r0.id = (Storage.invoiceView s r).id ∧
        (Storage.invoiceView s r).amount = r0.amount) := by
  have hitems : (Storage.invoiceView s r).items = Storage.getInvoiceItems s r.id :=
    rfl
  have hamount : (Storage.invoiceView s r).amount =
      (if (Storage.getInvoiceItems s r.id).length > 0 then
        some (round2 (((Storage.getInvoiceItems s r.id).map
          (fun it => it.amount)).sum))
      else r.amount) := rfl
  constructor
  · intro h
    rw [hitems] at h
    rw [hamount, if_pos (List.length_pos.mpr h)]
    rfl
  · intro h
    rw [hitems] at h
    refine ⟨r, hr, rfl, ?_⟩
    rw [hamount, if_neg (by rw [h]; simp)]

/-- Claim C3: both `getInvoice` and `getInvoices` return, for every
invoice that has at least one line item, an effective `amount` equal to
the two-digit-rounded sum of its items' amounts — whatever the stored
legacy amount column holds — and return the stored legacy amount
unchanged for an invoice with zero items. -/
theorem claim3_effective_amount (s : State) :
    (∀ id v, Storage.getInvoice s id = some v →
      (v.items ≠ [] →
        v.amount = some (round2 ((v.items.map (fun it => it.amount)).sum))) ∧
      (v.items = [] →
        ∃ r ∈ s.invoices, r.id = v.id ∧ v.amount = r.amount)) ∧
    (∀ u v, v ∈ Storage.getInvoices s u →
      (v.items ≠ [] →
        v.amount = some (round2 ((v.items.map (fun it => it.amount)).sum))) ∧
      (v.items = [] →
        ∃ r ∈ s.invoices, r.id = v.id ∧ v.amount = r.amount)) := by
  constructor
  · intro id v hv
    unfold Storage.getInvoice at hv
    obtain ⟨r, hfind, hview⟩ := Option.map_eq_some'.mp hv
    have hr : r ∈ s.invoices := List.mem_of_find?_eq_some hfind
    rw [← hview]
    exact invoiceView_amount_spec s r hr
  · intro u v hv
    unfold Storage.getInvoices at hv
    obtain ⟨r, hrf, hview⟩ := List.mem_map.mp hv
    have hr : r ∈ s.invoices := List.mem_of_mem_filter hrf
    rw [← hview]
    exact invoiceView_amount_spec s r hr

/-- The joined view of the demo invoice i1: two items totalling 800,
overriding the stored legacy amount of 100. -/
def demoView : Storage.InvoiceView :=
  ⟨"i1", "u1", "c1", none, 1001, ⟨2025, 1, 15⟩, none, some 800, false, none,
   none, some demoCustomer, [demoItem1, demoItem2]⟩

/-- Claim C3, witness: reading demo invoice i1 (stored legacy amount
100, items 500 and 300) yields the derived amount, which is 800. -/
theorem claim3_witness :
    Storage.getInvoice demoState "i1" = some demoView ∧
    demoView.amount =
      some (round2 ((demoView.items.map (fun it => it.amount)).sum)) ∧
    demoView.amount = some 800 := by
  have hv : Storage.getInvoice demoState "i1" = some demoView := by
    simp [Storage.getInvoice, Storage.invoiceView, Storage.getInvoiceItems,
      Storage.getCustomer, demoState, demoCustomer, demoInvoice, demoGenInvoice,
      demoItem1, demoItem2, demoGenItem, demoView, List.find?, List.filter]
    norm_num [round2]
  exact ⟨hv, ((claim3_effective_amount demoState).1 "i1" demoView hv).1
    (by decide), rfl⟩

/-! Claim C7: webhook idempotence. -/

theorem find?_map_comm {α : Type} (l : List α) (g : α → α) (p : α → Bool)
    (hp : ∀ r, p (g r) = p r) : (l.map g).find? p = (l.find? p).map g := by
  induction l with
  | nil => rfl
  | cons a t ih =>
    by_cases h : p a = true
    · rw [List.map_cons, List.find?_cons_of_pos _ (by rw [hp a]; exact h),
        List.find?_cons_of_pos _ h, Option.map_some']
    · rw [List.map_cons, List.find?_cons_of_neg _ (by rw [hp a]; simpa using h),
        List.find?_cons_of_neg _ (by simpa using h), ih]

theorem applyPatch_id (r : Invoice) (p : Storage.InvoicePatch) :
    (Storage.applyPatch r p).id = r.id := rfl

theorem applyPatch_idem (r : Invoice) (p : Storage.InvoicePatch) :
    Storage.applyPatch (Storage.applyPatch r p) p = Storage.applyPatch r p := by
  rcases p with ⟨ip, sp, pp⟩
  cases ip <;> cases sp <;> cases pp <;> rfl

/-- The per-row function of the webhook's `updateInvoice(id, { isPaid:
true })`. -/
def markPaidRow (iid : String) (r : Invoice) : Invoice :=
  if r.id == iid then Storage.applyPatch r ⟨some true, none, none⟩ else r

theorem markPaidRow_id (iid : String) (r : Invoice) :
    (markPaidRow iid r).id = r.id := by
  unfold markPaidRow
  by_cases h : (r.id == iid) = true
  · rw [if_pos h, applyPatch_id]
  · rw [if_neg h]

theorem markPaidRow_idem (iid : String) (r : Invoice) :
    markPaidRow iid (markPaidRow iid r) = markPaidRow iid r := by
  unfold markPaidRow
  by_cases h : (r.id == iid) = true
  · rw [if_pos h, if_pos (by rw [applyPatch_id]; exact h), applyPatch_idem]
  · rw [if_neg h, if_neg h]

theorem updateInvoice_markPaid (s : State) (iid : String) :
    Storage.updateInvoice s iid ⟨some true, none, none⟩ =
      ((s.invoices.map (markPaidRow iid)).find? (fun r => r.id == iid),
       { s with invoices := s.invoices.map (markPaidRow iid) }) := rfl

/-- Claim C7: delivering the same verified checkout-completed event
twice performs exactly one false-to-true transition of the referenced
invoice's paid flag.  The first delivery answers success and flips the
flag; the second delivery answers success, changes nothing at all (so
no second transition and no extra invoice), and the invoice count is
unchanged already after the first delivery. -/
theorem claim7_webhook_idempotent (cfg : Routes.WebhookConfig)
    (env : Routes.StripeEnv) (s : State) (req : Routes.WebhookRequest)
    (secret : String) (ev : Routes.StripeEvent) (iid : String) (inv : Invoice)
    (hsecret : cfg.secret = some secret)
    (hok : Routes.constructEvent secret req = some ev)
    (htype : ev.type = "checkout.session.completed")
    (hmeta : ev.session.metadataInvoiceId = some iid)
    (hfind : s.invoices.find? (fun r => r.id == iid) = some inv)
    (hunpaid : inv.isPaid = false) :
    (Routes.stripeWebhookHandler cfg env s req).1 = (200, true) ∧
    (((Routes.stripeWebhookHandler cfg env s req).2.invoices.find?
        (fun r => r.id == iid)).map (fun r => r.isPaid)) = some true ∧
    (Routes.stripeWebhookHandler cfg env s req).2.invoices.length =
      s.invoices.length ∧
    Routes.stripeWebhookHandler cfg env
        (Routes.stripeWebhookHandler cfg env s req).2 req =
      ((200, true), (Routes.stripeWebhookHandler cfg env s req).2) := by
  have hbeq : (inv.id == iid) = true := by
    have h := List.find?_some hfind
    simpa using h
  have hhandler : ∀ s2 : State, Routes.stripeWebhookHandler cfg env s2 req =
      Routes.markPaidStep s2 iid := by
    intro s2
    simp only [Routes.stripeWebhookHandler, hsecret, hok]
    rw [if_pos htype]
    simp only [hmeta]
  have hp : ∀ r : Invoice, ((markPaidRow iid r).id == iid) = (r.id == iid) := by
    intro r
    rw [markPaidRow_id]
  have hstep : ∀ s2 : State,
      s2.invoices.find? (fun r => r.id == iid) = some inv →
      Routes.markPaidStep s2 iid =
        ((200, true), { s2 with invoices := s2.invoices.map (markPaidRow iid) }) := by
    intro s2 hf
    unfold Routes.markPaidStep
    rw [updateInvoice_markPaid]
    have hfound : (s2.invoices.map (markPaidRow iid)).find?
        (fun r => r.id == iid) = some (markPaidRow iid inv) := by
      rw [find?_map_comm _ _ _ hp, hf, Option.map_some']
    simp only [hfound]
  have h1 := hhandler s
  have hs1 := hstep s hfind
  have hfound1 : ((s.invoices.map (markPaidRow iid)).find?
      (fun r => r.id == iid)) = some (markPaidRow iid inv) := by
    rw [find?_map_comm _ _ _ hp, hfind, Option.map_some']
  have hpaid1 : (markPaidRow iid inv).isPaid = true := by
    unfold markPaidRow
    rw [if_pos hbeq]
    rfl
  have hmapmap : (s.invoices.map (markPaidRow iid)).map (markPaidRow iid) =
      s.invoices.map (markPaidRow iid) := by
    rw [List.map_map]
    exact List.map_congr_left (fun r hr => markPaidRow_idem iid r)
  refine ⟨?_, ?_, ?_, ?_⟩
  · rw [h1, hs1]
  · rw [h1, hs1]
    simp only [hfound1, Option.map_some', hpaid1]
  · rw [h1, hs1]
    exact List.length_map s.invoices (markPaidRow iid)
  · rw [h1, hs1]
    rw [hhandler]
    have hfind2 : ({ s with invoices := s.invoices.map (markPaidRow iid) }
        : State).invoices.find? (fun r => r.id == iid) =
        some (markPaidRow iid inv) := hfound1
    unfold Routes.markPaidStep
    rw [updateInvoice_markPaid]
    have hfound2 : ((({ s with invoices := s.invoices.map (markPaidRow iid) }
        : State).invoices.map (markPaidRow iid)).find? (fun r => r.id == iid))
        = some (markPaidRow iid (markPaidRow iid inv)) := by
      rw [find?_map_comm _ _ _ hp, hfind2, Option.map_some']
    simp only [hfound2]
    have hstate : (({ s with invoices := s.invoices.map (markPaidRow iid) }
        : State).invoices.map (markPaidRow iid)) =
        s.invoices.map (markPaidRow iid) := hmapmap
    rw [hstate]

/-- Claim C7, witness: a correctly signed completion event for the
unpaid demo invoice i1, delivered twice: first delivery flips the flag
and answers success; the second answers success and leaves the state of
the first delivery identical. -/
theorem claim7_witness :
    (Routes.stripeWebhookHandler ⟨some "whsec"⟩ [] demoState
        ⟨some ⟨"checkout.session.completed", ⟨"cs_1", some "i1", none⟩⟩,
         some ("whsec", ⟨"checkout.session.completed", ⟨"cs_1", some "i1", none⟩⟩)⟩).1
      = (200, true) ∧
    (((Routes.stripeWebhookHandler ⟨some "whsec"⟩ [] demoState
        ⟨some ⟨"checkout.session.completed", ⟨"cs_1", some "i1", none⟩⟩,
         some ("whsec", ⟨"checkout.session.completed", ⟨"cs_1", some "i1", none⟩⟩)⟩).2.invoices.find?
        (fun r => r.id == "i1")).map (fun r => r.isPaid)) = some true ∧
    (Routes.stripeWebhookHandler ⟨some "whsec"⟩ [] demoState
        ⟨some ⟨"checkout.session.completed", ⟨"cs_1", some "i1", none⟩⟩,
         some ("whsec", ⟨"checkout.session.completed", ⟨"cs_1", some "i1", none⟩⟩)⟩).2.invoices.length
      = demoState.invoices.length ∧
    Routes.stripeWebhookHandler ⟨some "whsec"⟩ []
        (Routes.stripeWebhookHandler ⟨some "whsec"⟩ [] demoState
          ⟨some ⟨"checkout.session.completed", ⟨"cs_1", some "i1", none⟩⟩,
           some ("whsec", ⟨"checkout.session.completed", ⟨"cs_1", some "i1", none⟩⟩)⟩).2
        ⟨some ⟨"checkout.session.completed", ⟨"cs_1", some "i1", none⟩⟩,
         some ("whsec", ⟨"checkout.session.completed", ⟨"cs_1", some "i1", none⟩⟩)⟩
      = ((200, true),
         (Routes.stripeWebhookHandler ⟨some "whsec"⟩ [] demoState
          ⟨some ⟨"checkout.session.completed", ⟨"cs_1", some "i1", none⟩⟩,
           some ("whsec", ⟨"checkout.session.completed", ⟨"cs_1", some "i1", none⟩⟩)⟩).2) :=
  claim7_webhook_idempotent ⟨some "whsec"⟩ [] demoState
    ⟨some ⟨"checkout.session.completed", ⟨"cs_1", some "i1", none⟩⟩,
     some ("whsec", ⟨"checkout.session.completed", ⟨"cs_1", some "i1", none⟩⟩)⟩
    "whsec" ⟨"checkout.session.completed", ⟨"cs_1", some "i1", none⟩⟩ "i1"
    demoInvoice rfl (by decide) rfl rfl (by decide) rfl

/-! Claim C6: generating an invoice from a recurring template. -/

theorem enumFrom_map_pair (l : List (String × ℚ)) (n : Nat) :
    (List.enumFrom n l).map (fun p => (p.2.1, p.2.2)) = l := by
  induction l generalizing n with
  | nil => rfl
  | cons a t ih => simp [List.enumFrom, ih]

theorem items_copy_proj (l : List (String × ℚ)) (fid : String) :
    ((l.enum.map (fun p =>
        InvoiceItem.mk (fid ++ "-item-" ++ toString p.1) fid p.2.1 p.2.2)).map
      (fun it => (it.description, it.amount))) = l := by
  rw [List.map_map]
  exact enumFrom_map_pair l 0

/-- The per-row update of `updateRecurringInvoiceNextDate`. -/
def advanceRow (tid : String) (nextDate lastDate : Ymd)
    (r : RecurringInvoice) : RecurringInvoice :=
  if r.id == tid then
    { r with nextInvoiceDate := nextDate, lastInvoiceDate := some lastDate }
  else r

theorem updateRecurringInvoiceNextDate_eq (s : State) (tid : String)
    (nextDate lastDate : Ymd) :
    Storage.updateRecurringInvoiceNextDate s tid nextDate lastDate =
      { s with recurringInvoices :=
          s.recurringInvoices.map (advanceRow tid nextDate lastDate) } := rfl

/-- Claim C6: under the preconditions that the template exists (with
its customer), belongs to the caller, and is active,
`generateHandler` answers 200 with exactly one new invoice appended to
the ledger — dated today, owned by the caller (the template's owner),
for the template's customer, back-referencing the template, unpaid,
numbered by the sequencer — whose items are an element-wise copy of the
template's current items; and the template row is advanced to
`nextInvoiceDate = calculateNextInvoiceDate(frequency, today)` and
`lastInvoiceDate = today`. -/
theorem claim6_generate_from_template (s : State) (caller tid : String)
    (today : Ymd) (freshId : String) (rv : Storage.RecurringView) (c : Customer)
    (hrv : Storage.getRecurringInvoice s tid = some rv)
    (hcust : rv.customer = some c)
    (howner : rv.userId = caller)
    (hactive : rv.isActive = true) :
    ∃ newInv,
      (Routes.generateHandler s caller tid today freshId false).1 =
        (200, some newInv) ∧
      (Routes.generateHandler s caller tid today freshId false).2.invoices =
        s.invoices ++ [newInv] ∧
      newInv.userId = caller ∧ newInv.userId = rv.userId ∧
      newInv.customerId = rv.customerId ∧
      newInv.recurringInvoiceId = some tid ∧ newInv.date = today ∧
      newInv.isPaid = false ∧
      newInv.invoiceNumber = Storage.getNextInvoiceNumber s caller ∧
      (∃ newItems,
        (Routes.generateHandler s caller tid today freshId false).2.invoiceItems =
          s.invoiceItems ++ newItems ∧
        newItems.map (fun it => (it.description, it.amount)) =
          rv.items.map (fun it => (it.description, it.amount)) ∧
        ∀ it ∈ newItems, it.invoiceId = newInv.id) ∧
      (∃ r0 ∈ (Routes.generateHandler s caller tid today freshId false).2.recurringInvoices,
        r0.id = tid) ∧
      (∀ r0 ∈ (Routes.generateHandler s caller tid today freshId false).2.recurringInvoices,
        r0.id = tid →
          r0.nextInvoiceDate = calculateNextInvoiceDate rv.frequency today ∧
          r0.lastInvoiceDate = some today) := by
  have hitems := items_copy_proj
    (rv.items.map (fun it => (it.description, it.amount))) freshId
  refine ⟨⟨freshId, caller, rv.customerId, some tid,
    Storage.getNextInvoiceNumber s caller, today, none, none, false, none,
    none⟩, ?_⟩
  have hred : Routes.generateHandler s caller tid today freshId false =
      ((200, some ⟨freshId, caller, rv.customerId, some tid,
        Storage.getNextInvoiceNumber s caller, today, none, none, false, none,
        none⟩),
       { s with
         invoices := s.invoices ++ [⟨freshId, caller, rv.customerId, some tid,
           Storage.getNextInvoiceNumber s caller, today, none, none, false,
           none, none⟩],
         invoiceItems := s.invoiceItems ++
           ((rv.items.map (fun it => (it.description, it.amount))).enum.map
             (fun p => InvoiceItem.mk (freshId ++ "-item-" ++ toString p.1)
               freshId p.2.1 p.2.2)),
         recurringInvoices := s.recurringInvoices.map
           (advanceRow tid (calculateNextInvoiceDate rv.frequency today)
             today) }) := by
    simp only [Routes.generateHandler, hrv, hcust, hactive, Bool.not_true,
      Bool.false_eq_true, if_false, Storage.createInvoiceWithItems,
      updateRecurringInvoiceNextDate_eq]
    by_cases hlen : (rv.items.map
        (fun it => (it.description, it.amount))).length > 0
    · rw [if_pos hlen]
    · rw [if_neg hlen]
      have hnil : (rv.items.map (fun it => (it.description, it.amount))) = [] := by
        rcases List.eq_nil_or_concat (rv.items.map
          (fun it => (it.description, it.amount))) with h | ⟨l2, a, h⟩
        · exact h
        · exact absurd (by rw [h]; simp) hlen
      rw [hnil]
      simp
  obtain ⟨r0, hfind0, hview0⟩ := Option.map_eq_some'.mp hrv
  have hmem0 : r0 ∈ s.recurringInvoices := List.mem_of_find?_eq_some hfind0
  have hbeq0 : (r0.id == tid) = true := by
    have h := List.find?_some hfind0
    simpa using h
  have hid0 : r0.id = tid := by
    exact beq_iff_eq.mp hbeq0
  rw [hred]
  refine ⟨rfl, rfl, rfl, howner.symm, rfl, rfl, rfl, rfl, rfl, ?_, ?_, ?_⟩
  · refine ⟨(rv.items.map (fun it => (it.description, it.amount))).enum.map
      (fun p => InvoiceItem.mk (freshId ++ "-item-" ++ toString p.1)
        freshId p.2.1 p.2.2), rfl, hitems, ?_⟩
    intro it hit
    obtain ⟨p, hp, hpe⟩ := List.mem_map.mp hit
    rw [← hpe]
  · refine ⟨advanceRow tid (calculateNextInvoiceDate rv.frequency today) today r0,
      List.mem_map_of_mem _ hmem0, ?_⟩
    unfold advanceRow
    rw [if_pos hbeq0]
    exact hid0
  · intro r1 hr1 hid1
    obtain ⟨r2, hr2, hr2e⟩ := List.mem_map.mp hr1
    by_cases h2 : (r2.id == tid) = true
    · have : advanceRow tid (calculateNextInvoiceDate rv.frequency today)
          today r2 = { r2 with
            nextInvoiceDate := calculateNextInvoiceDate rv.frequency today,
            lastInvoiceDate := some today } := by
        unfold advanceRow
        rw [if_pos h2]
      rw [← hr2e, this]
      exact ⟨rfl, rfl⟩
    · have : advanceRow tid (calculateNextInvoiceDate rv.frequency today)
          today r2 = r2 := by
        unfold advanceRow
        rw [if_neg h2]
      rw [← hr2e, this] at hid1
      rw [this] at hr2e
      exact absurd (beq_iff_eq.mpr hid1) h2

/-- The joined view of the demo recurring template r1: one 75 item, so
the derived template total is 75. -/
def demoTemplateView : Storage.RecurringView :=
  ⟨"r1", "u1", "c1", "Monthly retainer", "monthly", ⟨2025, 1, 15⟩, none,
   ⟨2025, 2, 15⟩, none, true, some demoCustomer, [demoTemplateItem], 75⟩

/-- Claim C6, witness: generating from the demo template r1 on
2025-02-15 as its owner u1. -/
theorem claim6_witness :
    ∃ newInv,
      (Routes.generateHandler demoState "u1" "r1" ⟨2025, 2, 15⟩ "i9" false).1 =
        (200, some newInv) ∧
      (Routes.generateHandler demoState "u1" "r1" ⟨2025, 2, 15⟩ "i9" false).2.invoices =
        demoState.invoices ++ [newInv] ∧
      newInv.userId = "u1" ∧ newInv.userId = demoTemplateView.userId ∧
      newInv.customerId = demoTemplateView.customerId ∧
      newInv.recurringInvoiceId = some "r1" ∧ newInv.date = ⟨2025, 2, 15⟩ ∧
      newInv.isPaid = false ∧
      newInv.invoiceNumber = Storage.getNextInvoiceNumber demoState "u1" ∧
      (∃ newItems,
        (Routes.generateHandler demoState "u1" "r1" ⟨2025, 2, 15⟩ "i9" false).2.invoiceItems =
          demoState.invoiceItems ++ newItems ∧
        newItems.map (fun it => (it.description, it.amount)) =
          demoTemplateView.items.map (fun it => (it.description, it.amount)) ∧
        ∀ it ∈ newItems, it.invoiceId = newInv.id) ∧
      (∃ r0 ∈ (Routes.generateHandler demoState "u1" "r1" ⟨2025, 2, 15⟩ "i9" false).2.recurringInvoices,
        r0.id = "r1") ∧
      (∀ r0 ∈ (Routes.generateHandler demoState "u1" "r1" ⟨2025, 2, 15⟩ "i9" false).2.recurringInvoices,
        r0.id = "r1" →
          r0.nextInvoiceDate =
            calculateNextInvoiceDate demoTemplateView.frequency ⟨2025, 2, 15⟩ ∧
          r0.lastInvoiceDate = some ⟨2025, 2, 15⟩) := by
  have hv : Storage.getRecurringInvoice demoState "r1" = some demoTemplateView := by
    simp [Storage.getRecurringInvoice, Storage.getRecurringInvoiceItems,
      Storage.getCustomer, demoState, demoCustomer, demoInvoice, demoGenInvoice,
      demoItem1, demoItem2, demoGenItem, demoTemplate, demoTemplateItem,
      demoTemplateView, List.find?, List.filter]
    norm_num [round2]
  exact claim6_generate_from_template demoState "u1" "r1" ⟨2025, 2, 15⟩ "i9"
    demoTemplateView demoCustomer hv rfl rfl rfl

/-! Claim C1: cross-tenant isolation.  The spec requires every core
operation to reject access to entities owned by another user with
Forbidden/NotFound and to leak no data.  The route handlers for
fetching an invoice, updating and deleting a customer,
fetching/updating/deleting a recurring template, generating from a
template, and mark-paid never compare the entity's owner with the
session user (and the storage layer filters none of these by user), so
an authenticated stranger succeeds at all of them.  Evaluated below
with caller u2 against tenant u1's data. -/

/-- Claim C1, evaluated at the failing input: authenticated caller u2
invokes each listed operation on user u1's customer c1, invoice i1 and
template r1.  Every operation answers 200, returns u1's data, and the
mutating ones change or delete u1's rows — instead of the
Forbidden/NotFound the claim requires. -/
theorem claim1_cross_tenant_not_rejected :
    (Routes.getInvoiceHandler demoState "u2" "i1").1 = 200 ∧
    ((Routes.getInvoiceHandler demoState "u2" "i1").2.map
      (fun v => v.userId)) = some "u1" ∧
    (Routes.getRecurringInvoiceHandler demoState "u2" "r1").1 = 200 ∧
    ((Routes.getRecurringInvoiceHandler demoState "u2" "r1").2.map
      (fun v => v.userId)) = some "u1" ∧
    (Routes.updateCustomerHandler demoState "u2" "c1"
      ⟨"Mallory", "m at evil.test", "000", "nowhere"⟩).1.1 = 200 ∧
    ((Routes.updateCustomerHandler demoState "u2" "c1"
      ⟨"Mallory", "m at evil.test", "000", "nowhere"⟩).2.customers.map
      (fun c => c.name)) = ["Mallory"] ∧
    (Routes.deleteCustomerHandler demoState "u2" "c1").2.customers = [] ∧
    (Routes.markPaidHandler demoState "u2" "i1" true).1.1 = 200 ∧
    (((Routes.markPaidHandler demoState "u2" "i1" true).2.invoices.find?
      (fun r => r.id == "i1")).map (fun r => r.isPaid)) = some true ∧
    (Routes.updateRecurringInvoiceHandler demoState "u2" "r1"
      ⟨none, some "Hijacked", none, none, none, none⟩ none "f1").1.1 = 200 ∧
    (((Routes.updateRecurringInvoiceHandler demoState "u2" "r1"
      ⟨none, some "Hijacked", none, none, none, none⟩ none "f1").2.recurringInvoices.find?
      (fun r => r.id == "r1")).map (fun r => r.name)) = some "Hijacked" ∧
    (Routes.deleteRecurringInvoiceHandler demoState "u2" "r1").2.recurringInvoices
      = [] ∧
    (Routes.generateHandler demoState "u2" "r1" ⟨2025, 2, 15⟩ "i9" false).1.1
      = 200 ∧
    (Routes.generateHandler demoState "u2" "r1" ⟨2025, 2, 15⟩ "i9" false).2.invoices.length
      = demoState.invoices.length + 1 ∧
    ((Routes.generateHandler demoState "u2" "r1" ⟨2025, 2, 15⟩ "i9" false).2.invoices.map
      (fun r => r.customerId)).contains "c1" = true := by
  decide

end InvoiceFlow
